import Mathlib

/-!
Verification of the Java JNA language backend of cbindgen
(`src/bindgen/language_backend/java_jna.rs`).

The backend is embedded shallowly: every emitter method of
`JavaJnaLanguageBackend` becomes a Lean function over an explicit writer
state.  The low-level `SourceWriter` (emit raw text, new line if not at line
start, open/close brace blocks, attempt a horizontal rendering with
line-length validation) lives in `src/bindgen/writer.rs`, which is not part
of the sources given here; it is modelled from the specification, as are the
IR record types from `src/bindgen/ir` (only their use sites appear in the
given source).  The emitters themselves are translated line by line from
`java_jna.rs`.
-/

namespace JavaJna

/-! ## Writer model -/

/-- Modelled from the spec: the generic writer service of
`src/bindgen/writer.rs` (not in the given sources).  The state records the
list of emitted text chunks (the final output is their concatenation), the
content of the current line, and the indentation depth. -/
structure WState where
  chunks : List String
  line : String
  indent : Nat
deriving Repr, DecidableEq

/-- An emitter step: a state transformer over the writer state. -/
abbrev WM : Type := WState → WState

/-- Indentation text for depth `n` (two spaces per level). -/
def spaces (n : Nat) : String := String.mk (List.replicate (2 * n) (Char.ofNat 32))

/-- Modelled from the spec: emit raw text at the current position. -/
def W.write (s : String) (st : WState) : WState :=
  ⟨st.chunks ++ [s], st.line ++ s, st.indent⟩

/-- Modelled from the spec: start a new line and write the current
indentation. -/
def W.new_line (st : WState) : WState :=
  ⟨st.chunks ++ ["\n" ++ spaces st.indent], spaces st.indent, st.indent⟩

/-- Modelled from the spec: start a new line only when the current line
already holds text beyond its indentation. -/
def W.new_line_if_not_start (st : WState) : WState :=
  if st.line = spaces st.indent then st else W.new_line st

/-- Modelled from the spec: open a brace block (brace on the same line,
then a new, deeper-indented line). -/
def W.open_brace (st : WState) : WState :=
  W.new_line { W.write " \x7b" st with indent := st.indent + 1 }

/-- Modelled from the spec: close a brace block, optionally with a trailing
semicolon. -/
def W.close_brace (semicolon : Bool) (st : WState) : WState :=
  W.write (if semicolon then "\x7d;" else "\x7d") (W.new_line { st with indent := st.indent - 1 })

/-- Modelled from the spec: render a pre-rendered item sequence
horizontally, all on the current line, joined by the separator. -/
def horizontal_list (items : List String) (sep : String) : WM :=
  fun st => W.write (String.intercalate sep items) st

/-- Modelled from the spec: render a pre-rendered item sequence vertically,
one item per line; the separator ends each line but the last. -/
def vertical_list (items : List String) (sep : String) : WM :=
  fun st =>
    match items with
    | [] => st
    | x :: xs => xs.foldl (fun acc y => W.write y (W.new_line (W.write sep acc))) (W.write x st)

/-- Modelled from the spec: `SourceWriter::try_write` — attempt the
horizontal candidate; keep it when the resulting line stays within the
configured limit, otherwise discard it and run the vertical fallback. -/
def try_write_hv (limit : Nat) (horiz vert : WM) : WM :=
  fun st =>
    let st' := horiz st
    if st'.line.length ≤ limit then st' else vert st

/-- Final output bytes of a writer state. -/
def W.render (st : WState) : String := String.join st.chunks

/-- The writer state at the start of emission. -/
def init_st : WState := ⟨[], "", 0⟩

/-! ## IR model

The IR record types live in `src/bindgen/ir`, outside the given sources;
they are modelled from the spec (section 3) restricted to the fields the
given source reads. -/

/-- Integer kinds of the IR (`IntKind`), as matched by the source. -/
inductive IntKind
  | Short | Int | Long | LongLong | SizeT | Size | B8 | B16 | B32 | B64
deriving Repr, DecidableEq

/-- Primitive types of the IR (`PrimitiveType`), as matched by the source.
The source matches `Integer { kind, .. }`, reading only the kind. -/
inductive PrimitiveType
  | Void | Bool | Char | SChar | UChar | Char32 | Float | Double | VaList | PtrDiffT
  | Integer (kind : IntKind)
deriving Repr, DecidableEq

/-- The IR `Type` tagged union.  `Path` carries its export name (the source
only ever calls `path.export_name()`); `Ptr` metadata beyond the pointee and
the `FuncPtr` fields beyond `ret`/`args` are never read by the source and
are omitted. -/
inductive Type'
  | Primitive (p : PrimitiveType)
  | Ptr (ty : Type')
  | Path (name : String)
  | Array (ty : Type') (len : String)
  | FuncPtr (ret : Type') (args : List (Option String × Type'))
deriving Repr

/-- The IR `Literal` tagged union as matched by the source:
`Expr`, `Struct { export_name, .. }`, and a remaining catch-all whose Debug
form is carried opaquely (modelled from the spec, literal variants beyond
those two are only ever Debug-printed). -/
inductive Literal
  | Expr (expr : String)
  | Struct (export_name : String)
  | OtherLit (dbg : String)
deriving Repr, DecidableEq

/-- Documentation: ordered comment lines. -/
structure Documentation where
  doc_comment : List String
deriving Repr, DecidableEq

/-- Annotations as read by the source (`annotations.deprecated`). -/
structure AnnotationSet where
  deprecated : Option String
deriving Repr, DecidableEq

/-- Modelled from the spec: an associated constant (`Constant` of
`src/bindgen/ir/constant.rs`, not in the given sources): name, type,
literal value. -/
structure Constant where
  name : String
  ty : Type'
  value : Literal
deriving Repr

/-- A struct/union field. -/
structure Field where
  name : String
  ty : Type'
  documentation : Documentation
deriving Repr

/-- The IR `Struct` restricted to the fields the source reads. -/
structure Struct' where
  export_name : String
  fields : List Field
  is_transparent : Bool
  associated_constants : List Constant
  annotations : AnnotationSet
  documentation : Documentation
deriving Repr

/-- The IR `Union`.  Modelled from the spec (section 3), which gives
struct/union the same shape including associated constants and the
transparent flag; the source reads only name, fields, documentation and
deprecation. -/
structure Union' where
  export_name : String
  fields : List Field
  is_transparent : Bool
  associated_constants : List Constant
  annotations : AnnotationSet
  documentation : Documentation
deriving Repr

/-- An enum variant: export name and optional explicit discriminant
literal. -/
structure EnumVariant where
  export_name : String
  discriminant : Option Literal
  documentation : Documentation
deriving Repr, DecidableEq

/-- The IR `Enum` restricted to the fields the source reads. -/
structure Enum' where
  export_name : String
  variants : List EnumVariant
  annotations : AnnotationSet
  documentation : Documentation
deriving Repr, DecidableEq

/-- The IR `Typedef` restricted to the fields the source reads. -/
structure Typedef' where
  export_name : String
  aliased : Type'
  annotations : AnnotationSet
  documentation : Documentation
deriving Repr

/-- Modelled from the spec: a static item (name, type, literal value); the
source only Debug-prints it. -/
structure Static' where
  name : String
  ty : Type'
  value : Literal
deriving Repr

/-- A function parameter (optional name and type). -/
structure FnArg where
  name : Option String
  ty : Type'
deriving Repr

/-- The IR `Function` restricted to the fields the source reads
(`f.path.name()` is modelled as the stored name). -/
structure Function' where
  name : String
  ret : Type'
  args : List FnArg
  annotations : AnnotationSet
  documentation : Documentation
deriving Repr

/-- The IR `OpaqueItem` restricted to the fields the source reads. -/
structure OpaqueItem' where
  export_name : String
  annotations : AnnotationSet
  documentation : Documentation
deriving Repr, DecidableEq

/-- Configuration for function emission (`config.function.args`). -/
inductive Layout
  | Horizontal | Vertical | Auto
deriving Repr, DecidableEq

/-- `config.function`. -/
structure FunctionConfig where
  args : Layout
deriving Repr, DecidableEq

/-- `config.java_jna`. -/
structure JavaJnaConfig where
  package : Option String
  interface_name : Option String
  extra_defs : Option String
deriving Repr, DecidableEq

/-- The resolved configuration bundle, restricted to the recognized options
the source reads. -/
structure Config where
  header : Option String
  include_version : Bool
  autogen_warning : Option String
  java_jna : JavaJnaConfig
  line_length : Nat
  function : FunctionConfig
deriving Repr, DecidableEq

/-- The backend value (`JavaJnaLanguageBackend`): the resolved configuration
and the native-library binding name.  It holds no other state. -/
structure Backend where
  config : Config
  binding_lib_crate_name : String
deriving Repr, DecidableEq

/-! ## Helpers translated from the source -/

/-- Rust's `str::parse::<i32>()`: optional sign, one or more ASCII digits,
result within the 32-bit signed range; anything else fails.  (Defined over
the character list of the string so that it reduces by computation.) -/
def parse_i32 (s : String) : Option Int :=
  let core : Bool × List Char :=
    match s.data with
    | c :: rest =>
      if c = Char.ofNat 45 then (true, rest)
      else if c = Char.ofNat 43 then (false, rest)
      else (false, c :: rest)
    | [] => (false, [])
  let neg := core.1
  let digits := core.2
  if digits.isEmpty then none
  else if digits.all (fun c => c.isDigit) then
    let n : Nat := digits.foldl (fun acc c => acc * 10 + (c.toNat - 48)) 0
    if neg then
      if n ≤ 2147483648 then some (-(n : Int)) else none
    else
      if n ≤ 2147483647 then some (n : Int) else none
  else none

/-- The `JnaIntegerType` enum of the source. -/
inductive JnaIntegerType
  | Byte | Short | Int | NativeLong | Long | SizeT
deriving Repr, DecidableEq

/-- `JnaIntegerType::size`. -/
def JnaIntegerType.size : JnaIntegerType → String
  | .Byte => "1"
  | .Short => "2"
  | .Int => "4"
  | .NativeLong => "Native.LONG_SIZE"
  | .Long => "8"
  | .SizeT => "Native.SIZE_T_SIZE"

/-- `JnaIntegerType::set_method`. -/
def JnaIntegerType.set_method : JnaIntegerType → String
  | .Byte => "setByte(0, (byte)value.intValue())"
  | .Short => "setShort(0, (short)value.intValue())"
  | .Int => "setInt(0, value.intValue())"
  | .NativeLong => "setNativeLong(0, new NativeLong(value.longValue()))"
  | .SizeT => "setNativeLong(0, new NativeLong(value.longValue()))"
  | .Long => "setLong(0, value.longValue())"

/-- `JnaIntegerType::get_method`. -/
def JnaIntegerType.get_method : JnaIntegerType → String
  | .Byte => "getByte(0)"
  | .Short => "getShort(0)"
  | .Int => "getInt(0)"
  | .NativeLong => "getNativeLong(0).longValue()"
  | .SizeT => "getNativeLong(0).longValue()"
  | .Long => "getLong(0)"

/-- `JnaIntegerType::from_kind`. -/
def JnaIntegerType.from_kind : IntKind → JnaIntegerType
  | .Short => .Short
  | .Int => .Int
  | .Long => .NativeLong
  | .LongLong => .Long
  | .SizeT => .SizeT
  | .Size => .SizeT
  | .B8 => .Byte
  | .B16 => .Short
  | .B32 => .Int
  | .B64 => .Long

/-- Modelled from the spec: Rust `Debug` formatting of a `String` value
(quotes around the text; escaping of exotic characters is not reproduced,
no claim depends on it). -/
def debug_string (s : String) : String := "\"" ++ (s ++ "\"")

/-- Modelled from the spec: the Rust `Debug` form of a `Struct` IR node
(the derive output of the full record is abbreviated to the export name;
claims treat this text as opaque). -/
def struct_debug (s : Struct') : String := "Struct " ++ s.export_name

/-- Modelled from the spec: the Rust `Debug` form of a `Typedef` IR node. -/
def typedef_debug (t : Typedef') : String := "Typedef " ++ t.export_name

/-- Modelled from the spec: the Rust `Debug` form of a `Static` IR node. -/
def static_debug (s : Static') : String := "Static " ++ s.name

/-- Modelled from the spec: the Rust `Debug` form of a `Literal` IR node
reaching the catch-all arm. -/
def literal_debug : Literal → String
  | .Expr e => "Expr " ++ e
  | .Struct n => "Struct " ++ n
  | .OtherLit d => d

/-- `not_implemented`: the soft-failure placeholder comment carrying the
debug form of the unsupported node. -/
def not_implemented (dbg : String) : WM :=
  W.write ("/* Not implemented yet : " ++ (dbg ++ " */"))

/-! ## The type mapper (`write_type`) -/

/-- The pointer-to-primitive table inside `write_type` (the inner `match
primitive` of the `Type::Ptr` arm). -/
def ptr_primitive_name : PrimitiveType → String
  | .Void => "Pointer"
  | .Bool => "Pointer"
  | .Char => "ByteByReference"
  | .SChar => "ByteByReference"
  | .UChar => "ByteByReference"
  | .Char32 => "Pointer"
  | .Float => "FloatByReference"
  | .Double => "DoubleByReference"
  | .VaList => "PointerByReference"
  | .PtrDiffT => "PointerByReference"
  | .Integer kind =>
    match kind with
    | .Short => "ShortByReference"
    | .Int => "IntByReference"
    | .Long => "NativeLongByReference"
    | .LongLong => "LongByReference"
    | .SizeT => "NativeLongByReference"
    | .Size => "NativeLongByReference"
    | .B8 => "ByteByReference"
    | .B16 => "ShortByReference"
    | .B32 => "IntByReference"
    | .B64 => "LongByReference"

/-- The primitive table inside `write_type` (the `Type::Primitive` arm). -/
def primitive_name : PrimitiveType → String
  | .Void => "void"
  | .Bool => "boolean"
  | .Char => "byte"
  | .SChar => "byte"
  | .UChar => "byte"
  | .Char32 => "char"
  | .Float => "float"
  | .Double => "double"
  | .VaList => "Pointer"
  | .PtrDiffT => "Pointer"
  | .Integer kind =>
    match kind with
    | .Short => "short"
    | .Int => "int"
    | .Long => "NativeLong"
    | .LongLong => "long"
    | .SizeT => "NativeLong"
    | .Size => "NativeLong"
    | .B8 => "byte"
    | .B16 => "short"
    | .B32 => "int"
    | .B64 => "long"

/-- The text produced by `write_type`, as a pure function (the source
writes the parts of the `Array` case with consecutive writes; the bytes are
identical). -/
def write_type_str : Type' → String
  | .Ptr ty =>
    match ty with
    | .Ptr _ => "PointerByReference"
    | .Path path => path ++ "ByReference"
    | .Primitive p => ptr_primitive_name p
    | .Array _ _ => "Pointer"
    | .FuncPtr _ _ => "CallbackReference"
  | .Path path => path
  | .Primitive p => primitive_name p
  | .Array ty _ => write_type_str ty ++ "[]"
  | .FuncPtr _ _ => "Callback"

/-- `write_type` as an emitter step. -/
def write_type (t : Type') : WM := W.write (write_type_str t)

/-! ## Documentation, deprecation, literals -/

/-- `write_documentation`. -/
def write_documentation (d : Documentation) : WM :=
  fun st =>
    if d.doc_comment.isEmpty then st
    else
      let st := W.new_line_if_not_start st
      let st := W.write "/**" st
      let st := d.doc_comment.foldl (fun st line => W.write (" *" ++ line) (W.new_line st)) st
      let st := W.new_line st
      let st := W.write " */" st
      W.new_line st

/-- `write_deprecated`. -/
def write_deprecated (deprecated : Option String) : WM :=
  fun st =>
    match deprecated with
    | none => st
    | some d =>
      let st :=
        if d.isEmpty then st
        else
          let st := W.write "/**" st
          let st := W.new_line st
          let st := W.write (" * @deprecated " ++ d) st
          let st := W.new_line st
          let st := W.write " */" st
          W.new_line st
      W.new_line (W.write "@Deprecated" st)

/-- The text written by `write_literal` for a literal (one chunk; the
`Struct` arm and the catch-all arm produce the `not_implemented`
placeholder, the former with the Debug form of the
`format!("Struct Literal {export_name}")` string). -/
def literal_str : Literal → String
  | .Expr expr => expr
  | .Struct export_name =>
    "/* Not implemented yet : " ++ (debug_string ("Struct Literal " ++ export_name) ++ " */")
  | .OtherLit d => "/* Not implemented yet : " ++ (d ++ " */")

/-- `write_literal` as an emitter step. -/
def write_literal (l : Literal) : WM := W.write (literal_str l)

/-- `wrap_java_value`: rewrite an expression literal for its target type. -/
def wrap_java_value (literal : Literal) (ty : Type') : Literal :=
  match literal with
  | .Expr expr =>
    match ty with
    | .Primitive p =>
      match p with
      | .Double => .Expr (expr ++ "d")
      | .Float => .Expr (expr ++ "f")
      | .Integer kind =>
        match kind with
        | .LongLong => .Expr (expr ++ "L")
        | .B64 => .Expr (expr ++ "L")
        | .Long => .Expr ("new NativeLong(" ++ (expr ++ ")"))
        | .Size => .Expr ("new NativeLong(" ++ (expr ++ ")"))
        | .SizeT => .Expr ("new NativeLong(" ++ (expr ++ ")"))
        | _ => literal
      | _ => literal
    | .Path path => .Expr ("new " ++ (path ++ ("(" ++ (expr ++ ")"))))
    | _ => literal
  | _ => literal

/-- Modelled from the spec: `Constant::write` (`src/bindgen/ir/constant.rs`
is not in the given sources; the spec says associated constants are
rendered as static fields, and the source exposes `wrap_java_value` to that
module).  Renders one `public static final` field. -/
def constant_write (c : Constant) (assoc : Option Struct') : WM :=
  fun st =>
    let _ := assoc
    let st := W.write
      ("public static final " ++
        (write_type_str c.ty ++ (" " ++ (c.name ++ (" = " ++
          (literal_str (wrap_java_value c.value c.ty) ++ ";")))))) st
    W.new_line st

/-! ## Aggregate emission (`write_jna_struct` and its blocks) -/

/-- The `JnaStruct` argument record of `write_jna_struct`. -/
structure JnaStruct where
  documentation : Documentation
  constants : List (Constant × Struct')
  fields : List Field
  name : String
  superclass : String
  interface : String
  deprecated : Option String

/-- The `@Structure.FieldOrder` block of `write_jna_struct` (emitted only
for a non-empty field list): the annotation text, the field-name list laid
out by `try_write` with vertical fallback, the closing text, a new line. -/
def field_order_block (b : Backend) (field_names : List String) : WM :=
  fun st =>
    let st := W.write "@Structure.FieldOrder(\x7b" st
    let st := try_write_hv b.config.line_length
      (horizontal_list field_names ", ") (vertical_list field_names ",") st
    let st := W.write "\x7d)" st
    W.new_line st

/-- The associated-constants loop of `write_jna_struct` (and of the
transparent-integer-struct case). -/
def constants_block (constants : List (Constant × Struct')) : WM :=
  fun st => constants.foldl (fun st p => constant_write p.1 (some p.2) st) st

/-- The two constructors (`default`, `from Pointer`) emitted by
`write_jna_struct`. -/
def ctor_block (name : String) : WM :=
  fun st =>
    let st := W.write ("public " ++ (name ++ "()")) st
    let st := W.open_brace st
    let st := W.write "super();" st
    let st := W.close_brace false st
    let st := W.new_line st
    let st := W.new_line st
    let st := W.write ("public " ++ (name ++ "(Pointer p)")) st
    let st := W.open_brace st
    let st := W.write "super(p);" st
    let st := W.close_brace false st
    let st := W.new_line st
    W.new_line st

/-- One public field declaration of `write_jna_struct` (the source writes
the type with a separate `write_type` call; one chunk per write). -/
def field_decl (f : Field) : WM :=
  fun st =>
    let st := write_documentation f.documentation st
    let st := W.write "public " st
    let st := write_type f.ty st
    let st := W.write (" " ++ (f.name ++ ";")) st
    W.new_line st

/-- The field-declaration loop of `write_jna_struct`. -/
def fields_block (fields : List Field) : WM :=
  fun st => fields.foldl (fun st f => field_decl f st) st

/-- `write_jna_struct`. -/
def write_jna_struct (b : Backend) (s : JnaStruct) : WM :=
  fun st =>
    let st := W.new_line st
    let st := write_documentation s.documentation st
    let st := write_deprecated s.deprecated st
    let field_names := s.fields.map (fun it => "\"" ++ (it.name ++ "\""))
    let st := if field_names.isEmpty then st else field_order_block b field_names st
    let st := W.write
      ("class " ++ (s.name ++ (" extends " ++ (s.superclass ++ (" implements " ++ s.interface))))) st
    let st := W.open_brace st
    let st := constants_block s.constants st
    let st := ctor_block s.name st
    let st := fields_block s.fields st
    let st := W.close_brace false st
    W.new_line st

/-! ## Integer and pointer wrapper synthesizers -/

/-- `write_integer_type` (the integer-wrapper synthesizer): a value class
extending `IntegerType` with three constructors plus the caller-supplied
extra body, then a `ByReference` companion class. -/
def write_integer_type (documentation : Documentation) (name : String)
    (jna_underlying_type : JnaIntegerType) (deprecated : Option String) (extra : WM) : WM :=
  fun st =>
    let size := jna_underlying_type.size
    let st := write_documentation documentation st
    let st := write_deprecated deprecated st
    let st := W.write ("class " ++ (name ++ " extends IntegerType")) st
    let st := W.open_brace st
    let st := W.write ("public " ++ (name ++ "()")) st
    let st := W.open_brace st
    let st := W.write ("super(" ++ (size ++ ");")) st
    let st := W.close_brace false st
    let st := W.new_line st
    let st := W.new_line st
    let st := W.write ("public " ++ (name ++ "(long value)")) st
    let st := W.open_brace st
    let st := W.write ("super(" ++ (size ++ ", value);")) st
    let st := W.close_brace false st
    let st := W.new_line st
    let st := W.new_line st
    let st := W.write ("public " ++ (name ++ "(Pointer p)")) st
    let st := W.open_brace st
    let st := W.write ("this(p." ++ (jna_underlying_type.get_method ++ ");")) st
    let st := W.close_brace false st
    let st := W.new_line st
    let st := extra st
    let st := W.close_brace false st
    let st := W.new_line st
    let st := W.new_line st
    let st := W.write ("class " ++ (name ++ "ByReference extends ByReference")) st
    let st := W.open_brace st
    let st := W.write ("public " ++ (name ++ "ByReference()")) st
    let st := W.open_brace st
    let st := W.write ("super(" ++ (size ++ ");")) st
    let st := W.close_brace false st
    let st := W.new_line st
    let st := W.new_line st
    let st := W.write ("public " ++ (name ++ "ByReference(Pointer p)")) st
    let st := W.open_brace st
    let st := W.write ("super(" ++ (size ++ ");")) st
    let st := W.new_line st
    let st := W.write "setPointer(p);" st
    let st := W.close_brace false st
    let st := W.new_line st
    let st := W.new_line st
    let st := W.write ("public " ++ (name ++ " getValue()")) st
    let st := W.open_brace st
    let st := W.write ("return new " ++ (name ++ ("(getPointer()." ++ (jna_underlying_type.get_method ++ ");")))) st
    let st := W.close_brace false st
    let st := W.new_line st
    let st := W.new_line st
    let st := W.write ("public void setValue(" ++ (name ++ " value)")) st
    let st := W.open_brace st
    let st := W.write ("getPointer()." ++ (jna_underlying_type.set_method ++ ";")) st
    let st := W.close_brace false st
    let st := W.new_line st
    W.close_brace false st

/-- `write_pointer_type` (the pointer-wrapper synthesizer): a handle class
extending `PointerType` and a `ByReference` companion extending it. -/
def write_pointer_type (documentation : Documentation) (deprecated : Option String)
    (name : String) : WM :=
  fun st =>
    let st := write_documentation documentation st
    let st := write_deprecated deprecated st
    let st := W.write ("class " ++ (name ++ " extends PointerType")) st
    let st := W.open_brace st
    let st := W.write ("public " ++ (name ++ "()")) st
    let st := W.open_brace st
    let st := W.write "super(null);" st
    let st := W.close_brace false st
    let st := W.new_line st
    let st := W.write ("public " ++ (name ++ "(Pointer p)")) st
    let st := W.open_brace st
    let st := W.write "super(p);" st
    let st := W.close_brace false st
    let st := W.close_brace false st
    let st := W.new_line st
    let st := W.new_line st
    let st := write_documentation documentation st
    let st := write_deprecated deprecated st
    let st := W.write ("class " ++ (name ++ ("ByReference extends " ++ name))) st
    let st := W.open_brace st
    let st := W.write ("public " ++ (name ++ "ByReference()")) st
    let st := W.open_brace st
    let st := W.write "super(null);" st
    let st := W.close_brace false st
    let st := W.new_line st
    let st := W.write ("public " ++ (name ++ "ByReference(Pointer p)")) st
    let st := W.open_brace st
    let st := W.write "super(p);" st
    let st := W.close_brace false st
    W.close_brace false st

/-! ## Struct, union, opaque, typedef, static, function, enum emitters -/

/-- `write_struct`: transparent structs dispatch on the first field's type;
non-transparent structs take the aggregate path twice (by-value class and
`ByReference` class). -/
def write_struct (b : Backend) (s : Struct') : WM :=
  fun st =>
    let constants : List (Constant × Struct') := s.associated_constants.map (fun it => (it, s))
    if s.is_transparent then
      match s.fields.head? with
      | some ⟨_, .Primitive (.Integer kind), _⟩ =>
        write_integer_type s.documentation s.export_name (JnaIntegerType.from_kind kind)
          s.annotations.deprecated (constants_block constants) st
      | some ⟨_, .Path path, _⟩ =>
        let st := write_jna_struct b
          ⟨s.documentation, constants, [], s.export_name, path, "Structure.ByValue",
            s.annotations.deprecated⟩ st
        write_jna_struct b
          ⟨s.documentation, constants, [], s.export_name ++ "ByReference", path,
            "Structure.ByReference", s.annotations.deprecated⟩ st
      | some ⟨_, .Array _ _, _⟩ =>
        write_pointer_type s.documentation s.annotations.deprecated s.export_name st
      | _ => not_implemented (struct_debug s) st
    else
      let st := write_jna_struct b
        ⟨s.documentation, constants, s.fields, s.export_name, "Structure", "Structure.ByValue",
          s.annotations.deprecated⟩ st
      write_jna_struct b
        ⟨s.documentation, constants, s.fields, s.export_name ++ "ByReference", "Structure",
          "Structure.ByReference", s.annotations.deprecated⟩ st

/-- `write_union`: unconditionally the aggregate path, with an empty
constants vector. -/
def write_union (b : Backend) (u : Union') : WM :=
  fun st =>
    let st := write_jna_struct b
      ⟨u.documentation, [], u.fields, u.export_name, "Union", "Structure.ByValue",
        u.annotations.deprecated⟩ st
    write_jna_struct b
      ⟨u.documentation, [], u.fields, u.export_name ++ "ByReference", "Union",
        "Structure.ByReference", u.annotations.deprecated⟩ st

/-- `write_opaque_item`. -/
def write_opaque_item (o : OpaqueItem') : WM :=
  write_pointer_type o.documentation o.annotations.deprecated o.export_name

/-- The `IndexedFunctionArg` record of the source. -/
structure IndexedFunctionArg where
  ty : Type'
  name : Option String
  index : Nat

/-- The display name computed by `write_indexed_function_arg`: the declared
name, unless absent or the wildcard placeholder, then `arg<index>`. -/
def arg_display_name (a : IndexedFunctionArg) : String :=
  (a.name.bind (fun it => if it = "_" then none else some it)).getD ("arg" ++ toString a.index)

/-- The text `write_indexed_function_arg` emits for one argument (the
source writes the type and the name with two writes; bytes identical). -/
def render_indexed_arg (a : IndexedFunctionArg) : String :=
  write_type_str a.ty ++ (" " ++ arg_display_name a)

/-- `write_indexed_function_args`: the list layout engine applied to a
function-argument list, dispatching on `config.function.args`. -/
def write_indexed_function_args (b : Backend) (a : List IndexedFunctionArg) : WM :=
  match b.config.function.args with
  | .Horizontal => horizontal_list (a.map render_indexed_arg) ", "
  | .Vertical => vertical_list (a.map render_indexed_arg) ", "
  | .Auto =>
    try_write_hv b.config.line_length
      (horizontal_list (a.map render_indexed_arg) ", ")
      (vertical_list (a.map render_indexed_arg) ", ")

/-- The `enumerate`-and-collect step of `write_type_def`'s function-pointer
arm. -/
def indexed_args_of (args : List (Option String × Type')) : List IndexedFunctionArg :=
  args.enum.map (fun p => ⟨p.2.2, p.2.1, p.1⟩)

/-- One subclassing class of `write_type_def`'s Path arm: a class `n`
extending `s` with a default constructor and a `Pointer` constructor, each
delegating to `super` (the source emits this shape twice, for the by-value
and the by-reference class). -/
def typedef_subclass_block (d : Documentation) (n : String) (s : String) : WM :=
  fun st =>
    let st := write_documentation d st
    let st := W.write ("class " ++ (n ++ (" extends " ++ s))) st
    let st := W.open_brace st
    let st := W.write ("public " ++ (n ++ "()")) st
    let st := W.open_brace st
    let st := W.write "super();" st
    let st := W.close_brace false st
    let st := W.new_line st
    let st := W.write ("public " ++ (n ++ "(Pointer p)")) st
    let st := W.open_brace st
    let st := W.write "super(p);" st
    let st := W.close_brace false st
    W.close_brace false st

/-- `write_type_def`: dispatch on the aliased type's tag. -/
def write_type_def (b : Backend) (t : Typedef') : WM :=
  fun st =>
    match t.aliased with
    | .FuncPtr ret args =>
      let st := W.write ("interface " ++ (t.export_name ++ " extends Callback")) st
      let st := W.open_brace st
      let st := write_type ret st
      let st := W.write " invoke(" st
      let st := write_indexed_function_args b (indexed_args_of args) st
      let st := W.write ");" st
      W.close_brace false st
    | .Path path =>
      let st := typedef_subclass_block t.documentation t.export_name path st
      let st := W.new_line st
      let st := W.new_line st
      typedef_subclass_block t.documentation (t.export_name ++ "ByReference")
        (path ++ "ByReference") st
    | .Primitive p =>
      match p with
      | .Integer kind =>
        write_integer_type t.documentation t.export_name (JnaIntegerType.from_kind kind)
          t.annotations.deprecated (fun st => st) st
      | _ => not_implemented (typedef_debug t) st
    | .Ptr _ => write_pointer_type t.documentation t.annotations.deprecated t.export_name st
    | .Array _ _ => write_pointer_type t.documentation t.annotations.deprecated t.export_name st

/-- `write_static`: unconditionally the soft-failure placeholder. -/
def write_static (s : Static') : WM := not_implemented (static_debug s)

/-- `write_function`. -/
def write_function (b : Backend) (f : Function') : WM :=
  fun st =>
    let st := write_documentation f.documentation st
    let st := write_deprecated f.annotations.deprecated st
    let st := write_type f.ret st
    let st := W.write (" " ++ (f.name ++ "(")) st
    let st := write_indexed_function_args b (f.args.enum.map (fun p => ⟨p.2.ty, p.2.name, p.1⟩)) st
    W.write ");" st

/-- The discriminant assignment of one enum variant in `write_enum`: the
explicit literal when it is an expression parseable as `i32`, otherwise the
running value plus one. -/
def enum_variant_disc (cur : Int) (v : EnumVariant) : Int :=
  (v.discriminant.bind (fun l =>
    match l with
    | .Expr e => parse_i32 e
    | _ => none)).getD (cur + 1)

/-- The variant loop of `write_enum`, carrying the running discriminant
(initialised to 0 by the caller, exactly as in the source). -/
def enum_variants_loop (eName : String) : Int → List EnumVariant → WM
  | _, [] => fun st => st
  | cur, v :: rest => fun st =>
    let d := enum_variant_disc cur v
    let st := write_documentation v.documentation st
    let st := W.write
      ("public static final " ++ (eName ++ (" " ++ (v.export_name ++
        (" = new " ++ (eName ++ ("(" ++ (toString d ++ ");")))))))) st
    let st := W.new_line st
    enum_variants_loop eName d rest st

/-- `write_enum`: an integer wrapper (kind `int`) whose extra body is the
static variant instances. -/
def write_enum (e : Enum') : WM :=
  write_integer_type e.documentation e.export_name .Int e.annotations.deprecated
    (enum_variants_loop e.export_name 0 e.variants)

/-- The discriminant sequence the variant loop writes, one value per
variant, starting from running value `cur` (the source starts at 0). -/
def enum_discriminants : Int → List EnumVariant → List Int
  | _, [] => []
  | cur, v :: rest =>
    let d := enum_variant_disc cur v
    d :: enum_discriminants d rest

/-! ## Headers, namespace scaffolding, and the emission pipeline -/

/-- Modelled from the spec: `crate::bindgen::config::VERSION` (the version
string constant is not in the given sources). -/
def cbindgen_version : String := "VERSION"

/-- `write_headers`. -/
def write_headers (b : Backend) : WM :=
  fun st =>
    let st :=
      match b.config.header with
      | some header => W.new_line (W.write header (W.new_line_if_not_start st))
      | none => st
    let st :=
      if b.config.include_version then
        W.new_line (W.write ("/* Generated with cbindgen:" ++ (cbindgen_version ++ " */"))
          (W.new_line_if_not_start st))
      else st
    let st :=
      match b.config.autogen_warning with
      | some w => W.new_line (W.write w (W.new_line_if_not_start st))
      | none => st
    let st :=
      match b.config.java_jna.package with
      | some p => W.new_line (W.new_line (W.write ("package " ++ (p ++ ";"))
          (W.new_line_if_not_start st)))
      | none => st
    let st := W.write "import com.sun.jna.*;" st
    let st := W.new_line st
    let st := W.write "import com.sun.jna.ptr.*;" st
    W.new_line st

/-- The `NamespaceOperation` argument of `open_close_namespaces`. -/
inductive NamespaceOperation
  | Open | Close
deriving Repr, DecidableEq

/-- `open_close_namespaces`: the singleton/interface scaffold around the
emitted declarations. -/
def open_close_namespaces (b : Backend) (op : NamespaceOperation) : WM :=
  fun st =>
    match op with
    | .Open =>
      let name := b.config.java_jna.interface_name.getD "Bindings"
      let st := W.new_line_if_not_start st
      let st := W.write ("enum " ++ (name ++ "Singleton")) st
      let st := W.open_brace st
      let st := W.write "INSTANCE;" st
      let st := W.new_line st
      let st := W.write
        ("final " ++ (name ++ (" lib = Native.load(\"" ++
          (b.binding_lib_crate_name ++ ("\", " ++ (name ++ ".class);")))))) st
      let st := W.close_brace false st
      let st := W.new_line st
      let st := W.new_line st
      let st := W.write ("interface " ++ (name ++ " extends Library")) st
      let st := W.open_brace st
      let st := W.write (name ++ (" INSTANCE = " ++ (name ++ "Singleton.INSTANCE.lib;"))) st
      let st := W.new_line st
      match b.config.java_jna.extra_defs with
      | some extra => W.new_line (W.write extra st)
      | none => st
    | .Close => W.close_brace false st

/-- A top-level IR declaration, as dispatched by the (external) driver to
the backend's emitter methods. -/
inductive Item
  | enumItem (e : Enum')
  | structItem (s : Struct')
  | unionItem (u : Union')
  | opaqueItem (o : OpaqueItem')
  | typedefItem (t : Typedef')
  | staticItem (s : Static')
  | functionItem (f : Function')

/-- Dispatch of one declaration to its emitter method. -/
def write_item (b : Backend) : Item → WM
  | .enumItem e => write_enum e
  | .structItem s => write_struct b s
  | .unionItem u => write_union b u
  | .opaqueItem o => write_opaque_item o
  | .typedefItem t => write_type_def b t
  | .staticItem s => write_static s
  | .functionItem f => write_function b f

/-- The single declaration-order pass over the IR tree. -/
def emit_items (b : Backend) (items : List Item) : WM :=
  fun st => items.foldl (fun st i => write_item b i st) st

/-- A complete run of the backend: headers, namespace open, all
declarations, namespace close; the result is the output bytes. -/
def emit_run (b : Backend) (items : List Item) : String :=
  W.render (open_close_namespaces b .Close
    (emit_items b items (open_close_namespaces b .Open (write_headers b init_st))))


/-! ## Predicates, claim-side definitions and concrete fixtures -/

/-- An emitter step only ever appends chunks. -/
def W.appends (f : WM) : Prop := ∀ st, ∃ l, (f st).chunks = st.chunks ++ l

/-- The chunk opening the `@Structure.FieldOrder` annotation. -/
def field_order_ann : String := "@Structure.FieldOrder(\x7b"

/-- Membership of a given chunk is untouched by an emitter step. -/
def W.keeps (x : String) (f : WM) : Prop :=
  ∀ st, x ∈ (f st).chunks ↔ x ∈ st.chunks

/-- A configuration with every optional feature off, line limit 100,
`Auto` argument layout, and binding name `lib` (used for concrete
instances). -/
def b0 : Backend := ⟨⟨none, false, none, ⟨none, none, none⟩, 100, ⟨.Auto⟩⟩, "lib"⟩

/-- The two-variant enum of the spec scenario: `Ok` with no explicit
discriminant, `Err = 5`. -/
def status0 : Enum' :=
  ⟨"Status", [⟨"Ok", none, ⟨[]⟩⟩, ⟨"Err", some (.Expr "5"), ⟨[]⟩⟩], ⟨none⟩, ⟨[]⟩⟩

/-- A three-variant enum with no explicit discriminants. -/
def abc0 : Enum' :=
  ⟨"Abc", [⟨"A", none, ⟨[]⟩⟩, ⟨"B", none, ⟨[]⟩⟩, ⟨"C", none, ⟨[]⟩⟩], ⟨none⟩, ⟨[]⟩⟩

/-- A transparent struct `S` whose sole field has type `Path P`. -/
def c2_struct : Struct' := ⟨"S", [⟨"0", .Path "P", ⟨[]⟩⟩], true, [], ⟨none⟩, ⟨[]⟩⟩

/-- A union with one field and one associated constant `K : int = 42`. -/
def c6_union : Union' := ⟨"U", [⟨"a", .Primitive (.Integer .Int), ⟨[]⟩⟩], false,
  [⟨"K", .Primitive (.Integer .Int), .Expr "42"⟩], ⟨none⟩, ⟨[]⟩⟩

/-- A non-transparent struct with the same field and associated constant as
`c6_union`. -/
def c6_struct : Struct' := ⟨"T", [⟨"a", .Primitive (.Integer .Int), ⟨[]⟩⟩], false,
  [⟨"K", .Primitive (.Integer .Int), .Expr "42"⟩], ⟨none⟩, ⟨[]⟩⟩

/-- A union with no fields and no constants. -/
def c10_union : Union' := ⟨"V", [], false, [], ⟨none⟩, ⟨[]⟩⟩

/-- A typedef `T` aliasing `Path P`. -/
def c5_typedef : Typedef' := ⟨"T", .Path "P", ⟨none⟩, ⟨[]⟩⟩

/-- A typedef aliasing the non-integer primitive `bool`. -/
def c8_typedef : Typedef' := ⟨"B", .Primitive .Bool, ⟨none⟩, ⟨[]⟩⟩

/-- Replace the function-argument layout mode of a backend's
configuration. -/
def with_args_layout (b : Backend) (m : Layout) : Backend :=
  { b with config := { b.config with function := ⟨m⟩ } }

/-- The target types for which `wrap_java_value` rewrites an expression
literal, read off the specification: double, float, the 64-bit integer
kinds, the platform long/size kinds, and paths. -/
def transforming_type : Type' → Bool
  | .Primitive .Double => true
  | .Primitive .Float => true
  | .Primitive (.Integer .LongLong) => true
  | .Primitive (.Integer .B64) => true
  | .Primitive (.Integer .Long) => true
  | .Primitive (.Integer .Size) => true
  | .Primitive (.Integer .SizeT) => true
  | .Path _ => true
  | _ => false

/-! ## Chunk-accumulation infrastructure -/

/-- String inequality follows from differing first characters. -/
theorem ne_of_head_ne {s t : String} (h : s.data.head? ≠ t.data.head?) : s ≠ t :=
  fun e => h (by rw [e])

theorem appends_id : W.appends (fun st => st) := fun _ => ⟨[], by simp⟩

theorem appends_write (s : String) : W.appends (W.write s) := fun _ => ⟨[s], rfl⟩

theorem appends_new_line : W.appends W.new_line := fun _ => ⟨_, rfl⟩

theorem appends_new_line_if_not_start : W.appends W.new_line_if_not_start := by
  intro st
  unfold W.new_line_if_not_start
  split
  · exact ⟨[], by simp⟩
  · exact ⟨_, rfl⟩

theorem appends_open_brace : W.appends W.open_brace := by
  intro st
  exact ⟨[" \x7b", "\n" ++ spaces (st.indent + 1)],
    by simp [W.open_brace, W.write, W.new_line]⟩

theorem appends_close_brace (sc : Bool) : W.appends (W.close_brace sc) := by
  intro st
  exact ⟨["\n" ++ spaces (st.indent - 1), if sc then "\x7d;" else "\x7d"],
    by simp [W.close_brace, W.write, W.new_line]⟩

theorem appends_comp {f g : WM} (hf : W.appends f) (hg : W.appends g) :
    W.appends (fun st => g (f st)) := by
  intro st
  obtain ⟨l1, h1⟩ := hf st
  obtain ⟨l2, h2⟩ := hg (f st)
  exact ⟨l1 ++ l2, by rw [h2, h1, List.append_assoc]⟩

theorem appends_foldl {α : Type} (step : α → WM) (h : ∀ a, W.appends (step a))
    (l : List α) : W.appends (fun st => l.foldl (fun st a => step a st) st) := by
  induction l with
  | nil => exact appends_id
  | cons a as ih =>
    intro st
    obtain ⟨l1, h1⟩ := h a st
    obtain ⟨l2, h2⟩ := ih (step a st)
    refine ⟨l1 ++ l2, ?_⟩
    simp only [List.foldl_cons]
    rw [h2, h1, List.append_assoc]

theorem mem_of_appends {f : WM} (hf : W.appends f) {x : String} {st : WState}
    (h : x ∈ st.chunks) : x ∈ (f st).chunks := by
  obtain ⟨l, hl⟩ := hf st
  rw [hl]
  exact List.mem_append_left _ h

theorem appends_doc (d : Documentation) : W.appends (write_documentation d) := by
  intro st
  unfold write_documentation
  split
  · exact ⟨[], by simp⟩
  · exact appends_comp (appends_comp (appends_comp (appends_comp
      (appends_comp appends_new_line_if_not_start (appends_write "/**"))
      (appends_foldl (fun line => fun st => W.write (" *" ++ line) (W.new_line st))
        (fun line => appends_comp appends_new_line (appends_write (" *" ++ line)))
        d.doc_comment))
      appends_new_line) (appends_write " */")) appends_new_line st

theorem appends_depr (dep : Option String) : W.appends (write_deprecated dep) := by
  intro st
  unfold write_deprecated
  match dep with
  | none => exact ⟨[], by simp⟩
  | some d =>
    have h1 : W.appends (fun st => if d.isEmpty then st
        else W.new_line (W.write " */" (W.new_line (W.write (" * @deprecated " ++ d)
          (W.new_line (W.write "/**" st)))))) := by
      intro st'
      split
      · exact ⟨[], by simp⟩
      · exact appends_comp (appends_comp (appends_comp (appends_comp
          (appends_comp (appends_write "/**") appends_new_line)
          (appends_write (" * @deprecated " ++ d))) appends_new_line)
          (appends_write " */")) appends_new_line st'
    exact appends_comp h1 (appends_comp (appends_write "@Deprecated") appends_new_line) st

theorem appends_constant_write (c : Constant) (assoc : Option Struct') :
    W.appends (constant_write c assoc) := by
  intro st
  unfold constant_write
  exact appends_comp (appends_write _) appends_new_line st

theorem appends_constants_block (l : List (Constant × Struct')) :
    W.appends (constants_block l) := by
  induction l with
  | nil => intro st; exact ⟨[], by simp [constants_block]⟩
  | cons p ps ih =>
    intro st
    obtain ⟨l1, h1⟩ := appends_constant_write p.1 (some p.2) st
    obtain ⟨l2, h2⟩ := ih (constant_write p.1 (some p.2) st)
    refine ⟨l1 ++ l2, ?_⟩
    simp only [constants_block, List.foldl_cons] at h2 ⊢
    rw [h2, h1, List.append_assoc]

theorem appends_ctor_block (name : String) : W.appends (ctor_block name) := by
  intro st
  unfold ctor_block
  exact appends_comp (appends_comp (appends_comp (appends_comp (appends_comp
    (appends_comp (appends_comp (appends_comp (appends_comp (appends_comp
      (appends_comp (appends_write ("public " ++ (name ++ "()"))) appends_open_brace)
      (appends_write "super();")) (appends_close_brace false)) appends_new_line)
      appends_new_line) (appends_write ("public " ++ (name ++ "(Pointer p)"))))
      appends_open_brace) (appends_write "super(p);")) (appends_close_brace false))
      appends_new_line) appends_new_line st

theorem appends_write_type (t : Type') : W.appends (write_type t) :=
  fun st => appends_write (write_type_str t) st

theorem appends_field_decl (f : Field) : W.appends (field_decl f) := by
  intro st
  unfold field_decl
  exact appends_comp (appends_comp (appends_comp (appends_comp
    (appends_doc f.documentation) (appends_write "public "))
    (appends_write_type f.ty)) (appends_write (" " ++ (f.name ++ ";"))))
    appends_new_line st

theorem appends_fields_block (fields : List Field) : W.appends (fields_block fields) :=
  appends_foldl field_decl appends_field_decl fields

theorem appends_horizontal (items : List String) (sep : String) :
    W.appends (horizontal_list items sep) := fun st => appends_write _ st

theorem appends_vertical (items : List String) (sep : String) :
    W.appends (vertical_list items sep) := by
  intro st
  unfold vertical_list
  match items with
  | [] => exact ⟨[], by simp⟩
  | x :: xs =>
    exact appends_comp (appends_write x)
      (appends_foldl (fun y => fun acc => W.write y (W.new_line (W.write sep acc)))
        (fun y => appends_comp (appends_comp (appends_write sep) appends_new_line)
          (appends_write y)) xs) st

theorem appends_try_write {limit : Nat} {horiz vert : WM} (hh : W.appends horiz)
    (hv : W.appends vert) : W.appends (try_write_hv limit horiz vert) := by
  intro st
  by_cases h : (horiz st).line.length ≤ limit
  · simpa [try_write_hv, h] using hh st
  · simpa [try_write_hv, h] using hv st

theorem appends_field_order_block (b : Backend) (ns : List String) :
    W.appends (field_order_block b ns) := by
  intro st
  unfold field_order_block
  exact appends_comp (appends_comp (appends_comp
    (appends_write "@Structure.FieldOrder(\x7b")
    (appends_try_write (appends_horizontal ns ", ") (appends_vertical ns ",")))
    (appends_write "\x7d)")) appends_new_line st

/-! ## Field-order annotation membership -/

theorem keeps_comp {x : String} {f g : WM} (hf : W.keeps x f) (hg : W.keeps x g) :
    W.keeps x (fun st => g (f st)) := fun st => (hg (f st)).trans (hf st)

theorem keeps_write (x s : String) (h : s ≠ x) : W.keeps x (W.write s) := by
  intro st
  simp [W.write, Ne.symm h]

theorem keeps_foldl {x : String} {α : Type} (step : α → WM) (h : ∀ a, W.keeps x (step a))
    (l : List α) : W.keeps x (fun st => l.foldl (fun st a => step a st) st) := by
  induction l with
  | nil => exact fun _ => Iff.rfl
  | cons a as ih =>
    intro st
    simp only [List.foldl_cons]
    exact (ih (step a st)).trans (h a st)

theorem ann_head : field_order_ann.data.head? = some (Char.ofNat 64) := by decide

theorem ne_ann_of_head {s : String} (h : s.data.head? ≠ some (Char.ofNat 64)) :
    s ≠ field_order_ann := ne_of_head_ne (by rw [ann_head]; exact h)

/-- A string whose first character is not `@` differs from the annotation
chunk. -/
theorem head_ne_64 {c : Char} {s : String} (hs : s.data.head? = some c)
    (hc : c ≠ Char.ofNat 64) : s ≠ field_order_ann :=
  ne_ann_of_head (by rw [hs]; simp [hc])

theorem newline_ne_ann (n : Nat) : ("\n" ++ spaces n) ≠ field_order_ann :=
  head_ne_64 rfl (by decide)

theorem keeps_ann_new_line : W.keeps field_order_ann W.new_line := by
  intro st
  simp [W.new_line, Ne.symm (newline_ne_ann st.indent)]

theorem keeps_ann_nlins : W.keeps field_order_ann W.new_line_if_not_start := by
  intro st
  unfold W.new_line_if_not_start
  split
  · exact Iff.rfl
  · exact keeps_ann_new_line st

theorem keeps_ann_open_brace : W.keeps field_order_ann W.open_brace := by
  intro st
  simp [W.open_brace, W.write, W.new_line, Ne.symm (newline_ne_ann (st.indent + 1)),
    Ne.symm (show " \x7b" ≠ field_order_ann by decide)]

theorem keeps_ann_close_brace (sc : Bool) : W.keeps field_order_ann (W.close_brace sc) := by
  intro st
  cases sc <;>
    simp [W.close_brace, W.write, W.new_line, Ne.symm (newline_ne_ann (st.indent - 1)),
      Ne.symm (show "\x7d;" ≠ field_order_ann by decide),
      Ne.symm (show "\x7d" ≠ field_order_ann by decide)]

theorem keeps_ann_doc (d : Documentation) :
    W.keeps field_order_ann (write_documentation d) := by
  intro st
  unfold write_documentation
  split
  · exact Iff.rfl
  · exact (keeps_comp (keeps_comp (keeps_comp (keeps_comp
      (keeps_comp keeps_ann_nlins
        (keeps_write field_order_ann "/**" (head_ne_64 rfl (by decide))))
      (keeps_foldl (fun line => fun st => W.write (" *" ++ line) (W.new_line st))
        (fun line => keeps_comp keeps_ann_new_line
          (keeps_write field_order_ann (" *" ++ line) (head_ne_64 rfl (by decide))))
        d.doc_comment))
      keeps_ann_new_line)
      (keeps_write field_order_ann " */" (head_ne_64 rfl (by decide))))
      keeps_ann_new_line) st

theorem keeps_ann_depr (dep : Option String) :
    W.keeps field_order_ann (write_deprecated dep) := by
  intro st
  unfold write_deprecated
  match dep with
  | none => exact Iff.rfl
  | some d =>
    have h1 : W.keeps field_order_ann (fun st => if d.isEmpty then st
        else W.new_line (W.write " */" (W.new_line (W.write (" * @deprecated " ++ d)
          (W.new_line (W.write "/**" st)))))) := by
      intro st2
      split
      · exact Iff.rfl
      · exact (keeps_comp (keeps_comp (keeps_comp (keeps_comp
          (keeps_comp (keeps_write field_order_ann "/**" (head_ne_64 rfl (by decide)))
            keeps_ann_new_line)
          (keeps_write field_order_ann (" * @deprecated " ++ d) (head_ne_64 rfl (by decide))))
          keeps_ann_new_line)
          (keeps_write field_order_ann " */" (head_ne_64 rfl (by decide))))
          keeps_ann_new_line) st2
    exact (keeps_comp h1 (keeps_comp
      (keeps_write field_order_ann "@Deprecated" (by decide))
      keeps_ann_new_line)) st

theorem keeps_ann_constant_write (c : Constant) (assoc : Option Struct') :
    W.keeps field_order_ann (constant_write c assoc) := by
  intro st
  unfold constant_write
  refine (keeps_comp ?w keeps_ann_new_line) st
  exact keeps_write _ _ (head_ne_64 rfl (by decide))

theorem keeps_ann_constants_block (l : List (Constant × Struct')) :
    W.keeps field_order_ann (constants_block l) := by
  induction l with
  | nil => exact fun _ => Iff.rfl
  | cons p ps ih =>
    intro st
    simp only [constants_block, List.foldl_cons]
    have h2 := ih (constant_write p.1 (some p.2) st)
    simp only [constants_block] at h2
    exact h2.trans (keeps_ann_constant_write p.1 (some p.2) st)

theorem keeps_ann_ctor_block (name : String) :
    W.keeps field_order_ann (ctor_block name) := by
  intro st
  unfold ctor_block
  exact (keeps_comp (keeps_comp (keeps_comp (keeps_comp (keeps_comp
    (keeps_comp (keeps_comp (keeps_comp (keeps_comp (keeps_comp
      (keeps_comp
        (keeps_write field_order_ann ("public " ++ (name ++ "()"))
          (head_ne_64 rfl (by decide)))
        keeps_ann_open_brace)
      (keeps_write field_order_ann "super();" (by decide)))
      (keeps_ann_close_brace false)) keeps_ann_new_line) keeps_ann_new_line)
      (keeps_write field_order_ann ("public " ++ (name ++ "(Pointer p)"))
        (head_ne_64 rfl (by decide))))
      keeps_ann_open_brace)
      (keeps_write field_order_ann "super(p);" (by decide)))
      (keeps_ann_close_brace false)) keeps_ann_new_line) keeps_ann_new_line) st

theorem mem_ann_field_order (b : Backend) (ns : List String) (st : WState) :
    field_order_ann ∈ (field_order_block b ns st).chunks := by
  unfold field_order_block
  apply mem_of_appends (appends_comp (appends_comp
    (appends_try_write (appends_horizontal ns ", ") (appends_vertical ns ","))
    (appends_write "\x7d)")) appends_new_line)
  simp [W.write, field_order_ann]

/-- The field-order annotation appears in the output of `write_jna_struct`
exactly when it was already present or the field list is non-empty. -/
theorem mem_ann_write_jna_struct (b : Backend) (s : JnaStruct) (st : WState) :
    field_order_ann ∈ (write_jna_struct b s st).chunks ↔
      (field_order_ann ∈ st.chunks ∨ s.fields ≠ []) := by
  by_cases hf : s.fields = []
  · unfold write_jna_struct
    simp only [hf, List.map_nil, List.isEmpty_nil, eq_self_iff_true, if_true, ne_eq,
      not_true_eq_false, or_false]
    have kfb : W.keeps field_order_ann (fields_block []) := fun _ => Iff.rfl
    exact (keeps_comp (keeps_comp (keeps_comp (keeps_comp (keeps_comp
      (keeps_comp (keeps_comp (keeps_comp
        (keeps_comp keeps_ann_new_line (keeps_ann_doc s.documentation))
        (keeps_ann_depr s.deprecated))
        (keeps_write field_order_ann
          ("class " ++ (s.name ++ (" extends " ++ (s.superclass ++
            (" implements " ++ s.interface))))) (head_ne_64 rfl (by decide))))
        keeps_ann_open_brace)
        (keeps_ann_constants_block s.constants))
        (keeps_ann_ctor_block s.name))
        kfb)
        (keeps_ann_close_brace false))
        keeps_ann_new_line) st
  · obtain ⟨f, fs, hfs⟩ := List.exists_cons_of_ne_nil hf
    refine iff_of_true ?_ (Or.inr hf)
    unfold write_jna_struct
    simp only [hfs, List.map_cons, List.isEmpty_cons, Bool.false_eq_true, if_false]
    exact mem_of_appends (appends_comp (appends_comp (appends_comp (appends_comp
      (appends_comp (appends_comp (appends_write _) appends_open_brace)
      (appends_constants_block _)) (appends_ctor_block _))
      (appends_fields_block _)) (appends_close_brace false)) appends_new_line)
      (mem_ann_field_order b _ _)

/-! ## Claims -/

/-- C1: the claim says enum discriminants are the explicit parseable
literal, else previous + 1, with 0 for a first variant without explicit
literal, so that an all-implicit enum gets `0, 1, 2, …` and `{Ok, Err=5}`
gets `Ok=0, Err=5`.  The code initialises the running discriminant to 0 and
uses previous + 1 for every variant without a parseable literal, including
the first: an all-implicit enum is emitted with `1, 2, 3, …` and
`{Ok, Err=5}` with `Ok=1, Err=5`.  This theorem records the code's
behaviour at those inputs. -/
theorem claim_C1_discriminant_off_by_one :
    enum_discriminants 0 status0.variants = [1, 5] ∧
    enum_discriminants 0 abc0.variants = [1, 2, 3] ∧
    "public static final Status Ok = new Status(1);" ∈ (write_enum status0 init_st).chunks ∧
    "public static final Status Err = new Status(5);" ∈ (write_enum status0 init_st).chunks ∧
    "public static final Status Ok = new Status(0);" ∉ (write_enum status0 init_st).chunks ∧
    "public static final Abc A = new Abc(1);" ∈ (write_enum abc0 init_st).chunks ∧
    "public static final Abc A = new Abc(0);" ∉ (write_enum abc0 init_st).chunks := by
  decide

/-- C3 counterexample: the claim's pointer-to-primitive rule promises a
mutable-reference wrapper specific to each primitive, with distinct
wrappers for each integer kind; in the code the distinct kinds `Short` and
`B16` share `ShortByReference`, the kinds `Long`, `SizeT` and `Size` share
`NativeLongByReference`, and pointers to `void` and `bool` both map to the
generic raw `Pointer` type, which is also the plain mapping of `va_list`,
not a wrapper specific to those primitives. -/
theorem claim_C3_counterexample :
    write_type_str (.Ptr (.Primitive (.Integer .Short))) = "ShortByReference" ∧
    write_type_str (.Ptr (.Primitive (.Integer .B16))) = "ShortByReference" ∧
    IntKind.Short ≠ IntKind.B16 ∧
    write_type_str (.Ptr (.Primitive (.Integer .Long))) = "NativeLongByReference" ∧
    write_type_str (.Ptr (.Primitive (.Integer .SizeT))) = "NativeLongByReference" ∧
    write_type_str (.Ptr (.Primitive (.Integer .Size))) = "NativeLongByReference" ∧
    write_type_str (.Ptr (.Primitive .Void)) = "Pointer" ∧
    write_type_str (.Ptr (.Primitive .Bool)) = "Pointer" ∧
    write_type_str (.Primitive .VaList) = "Pointer" := by
  decide

/-- C3 (amended): the type mapper is a total pure function over all type
variants; platform-dependent integer kinds (`Long`, `SizeT`, `Size`) map to
`NativeLong`; a pointer to a primitive maps per a fixed table in which
float and double get distinct reference wrappers distinct from every
integer kind's wrapper, while integer kinds map to integer reference
wrappers by width (equal-width kinds sharing one) and void/bool/char32 map
to the raw `Pointer` type; a pointer to a pointer maps to
`PointerByReference`; a pointer to a path maps to `<name>ByReference`; a
pointer to an array maps to the generic `Pointer`; and a pointer to a
function pointer maps to `CallbackReference`. -/
theorem claim_C3_type_mapper :
    (write_type_str (.Primitive (.Integer .Long)) = "NativeLong" ∧
      write_type_str (.Primitive (.Integer .SizeT)) = "NativeLong" ∧
      write_type_str (.Primitive (.Integer .Size)) = "NativeLong") ∧
    (∀ p : PrimitiveType, write_type_str (.Primitive p) = primitive_name p ∧
      primitive_name p ≠ "") ∧
    (∀ p : PrimitiveType, write_type_str (.Ptr (.Primitive p)) = ptr_primitive_name p ∧
      ptr_primitive_name p ≠ "") ∧
    (write_type_str (.Ptr (.Primitive .Float)) = "FloatByReference" ∧
      write_type_str (.Ptr (.Primitive .Double)) = "DoubleByReference" ∧
      (∀ k : IntKind, ptr_primitive_name (.Integer k) ≠ "FloatByReference" ∧
        ptr_primitive_name (.Integer k) ≠ "DoubleByReference")) ∧
    (∀ t, write_type_str (.Ptr (.Ptr t)) = "PointerByReference") ∧
    (∀ p, write_type_str (.Ptr (.Path p)) = p ++ "ByReference") ∧
    (∀ ty len, write_type_str (.Ptr (.Array ty len)) = "Pointer") ∧
    (∀ r a, write_type_str (.Ptr (.FuncPtr r a)) = "CallbackReference") := by
  refine ⟨⟨rfl, rfl, rfl⟩, ?_, ?_, ⟨rfl, rfl, ?_⟩, ?_, ?_, ?_, ?_⟩
  · intro p
    cases p
    case Integer k => cases k <;> exact ⟨rfl, by decide⟩
    all_goals exact ⟨rfl, by decide⟩
  · intro p
    cases p
    case Integer k => cases k <;> exact ⟨rfl, by decide⟩
    all_goals exact ⟨rfl, by decide⟩
  · intro k
    cases k <;> exact ⟨by decide, by decide⟩
  · intro t
    rfl
  · intro p
    rfl
  · intro ty len
    rfl
  · intro r a
    rfl

/-- C4: under mode `Auto` the argument-list layout is byte-identical to the
forced `Horizontal` output when the horizontal rendering fits the
line-length limit and byte-identical to the forced `Vertical` output when
it exceeds it; modes `Horizontal` and `Vertical` render horizontally
respectively vertically unconditionally.  The equalities are between full
writer states, hence between output bytes. -/
theorem claim_C4_layout_engine :
    ∀ (b : Backend) (args : List IndexedFunctionArg) (st : WState),
      (write_indexed_function_args (with_args_layout b .Horizontal) args st =
        horizontal_list (args.map render_indexed_arg) ", " st) ∧
      (write_indexed_function_args (with_args_layout b .Vertical) args st =
        vertical_list (args.map render_indexed_arg) ", " st) ∧
      ((horizontal_list (args.map render_indexed_arg) ", " st).line.length ≤
          b.config.line_length →
        write_indexed_function_args (with_args_layout b .Auto) args st =
          write_indexed_function_args (with_args_layout b .Horizontal) args st) ∧
      (b.config.line_length <
          (horizontal_list (args.map render_indexed_arg) ", " st).line.length →
        write_indexed_function_args (with_args_layout b .Auto) args st =
          write_indexed_function_args (with_args_layout b .Vertical) args st) := by
  intro b args st
  refine ⟨rfl, rfl, ?_, ?_⟩
  · intro h
    simp [write_indexed_function_args, with_args_layout, try_write_hv, h]
  · intro h
    simp [write_indexed_function_args, with_args_layout, try_write_hv, not_le.mpr h]

/-- C4 witness: at a one-argument list that fits within the limit, the
`Auto` output coincides with the forced horizontal output. -/
theorem claim_C4_layout_engine_witness :
    write_indexed_function_args (with_args_layout b0 .Auto)
        [⟨.Primitive (.Integer .Int), some "x", 0⟩] init_st =
      write_indexed_function_args (with_args_layout b0 .Horizontal)
        [⟨.Primitive (.Integer .Int), some "x", 0⟩] init_st :=
  (claim_C4_layout_engine b0 [⟨.Primitive (.Integer .Int), some "x", 0⟩] init_st).2.2.1
    (by decide)

/-- C2 counterexample: for the transparent struct `S` over `Path P`, the
claim says the emitted `SByReference` class subclasses the referenced
path's by-reference class `PByReference`; the code emits
`class SByReference extends P implements Structure.ByReference` — both
emitted classes subclass the path's by-value class `P`, and no emitted
chunk declares the subclassing the claim requires. -/
theorem claim_C2_counterexample :
    "class S extends P implements Structure.ByValue"
      ∈ (write_struct b0 c2_struct init_st).chunks ∧
    "class SByReference extends P implements Structure.ByReference"
      ∈ (write_struct b0 c2_struct init_st).chunks ∧
    "class SByReference extends PByReference implements Structure.ByReference"
      ∉ (write_struct b0 c2_struct init_st).chunks := by
  decide

/-- C2 (amended): transparent-struct emission is a pure function of the
first field's type tag: an integer-primitive field produces the
integer-wrapper synthesizer output (no aggregate scaffold); a Path field
produces a by-value class and a ByReference class, both of which subclass
the referenced path's by-value class (superclass `path`, not
`pathByReference`); an Array field produces the pointer-wrapper output; any
other field type, and a missing field, produce the soft-failure
placeholder. -/
theorem claim_C2_transparent_dispatch :
    ∀ (b : Backend) (s : Struct') (st : WState), s.is_transparent = true →
      (∀ f kind, s.fields.head? = some f → f.ty = .Primitive (.Integer kind) →
        write_struct b s st = write_integer_type s.documentation s.export_name
          (JnaIntegerType.from_kind kind) s.annotations.deprecated
          (constants_block (s.associated_constants.map (fun it => (it, s)))) st) ∧
      (∀ f p, s.fields.head? = some f → f.ty = .Path p →
        write_struct b s st =
          write_jna_struct b ⟨s.documentation, s.associated_constants.map (fun it => (it, s)),
            [], s.export_name ++ "ByReference", p, "Structure.ByReference",
            s.annotations.deprecated⟩
            (write_jna_struct b ⟨s.documentation,
              s.associated_constants.map (fun it => (it, s)), [], s.export_name, p,
              "Structure.ByValue", s.annotations.deprecated⟩ st)) ∧
      (∀ f ty len, s.fields.head? = some f → f.ty = .Array ty len →
        write_struct b s st =
          write_pointer_type s.documentation s.annotations.deprecated s.export_name st) ∧
      (∀ f ty, s.fields.head? = some f → f.ty = .Ptr ty →
        write_struct b s st = not_implemented (struct_debug s) st) ∧
      (∀ f r a, s.fields.head? = some f → f.ty = .FuncPtr r a →
        write_struct b s st = not_implemented (struct_debug s) st) ∧
      (∀ f p, s.fields.head? = some f → f.ty = .Primitive p → (∀ k, p ≠ .Integer k) →
        write_struct b s st = not_implemented (struct_debug s) st) ∧
      (s.fields.head? = none →
        write_struct b s st = not_implemented (struct_debug s) st) := by
  intro b s st htr
  refine ⟨?_, ?_, ?_, ?_, ?_, ?_, ?_⟩
  · intro f kind hh hty
    rcases f with ⟨fn, fty, fd⟩
    cases hty
    unfold write_struct
    rw [htr, hh]
    rfl
  · intro f p hh hty
    rcases f with ⟨fn, fty, fd⟩
    cases hty
    unfold write_struct
    rw [htr, hh]
    rfl
  · intro f ty len hh hty
    rcases f with ⟨fn, fty, fd⟩
    cases hty
    unfold write_struct
    rw [htr, hh]
    rfl
  · intro f ty hh hty
    rcases f with ⟨fn, fty, fd⟩
    cases hty
    unfold write_struct
    rw [htr, hh]
    rfl
  · intro f r a hh hty
    rcases f with ⟨fn, fty, fd⟩
    cases hty
    unfold write_struct
    rw [htr, hh]
    rfl
  · intro f p hh hty hne
    rcases f with ⟨fn, fty, fd⟩
    cases hty
    unfold write_struct
    rw [htr, hh]
    cases p
    case Integer k => exact absurd rfl (hne k)
    all_goals rfl
  · intro hh
    unfold write_struct
    rw [htr, hh]
    rfl

/-- C2 witness: the amended Path case instantiated at the concrete
transparent struct `S` over `Path P`. -/
theorem claim_C2_transparent_dispatch_witness :
    write_struct b0 c2_struct init_st =
      write_jna_struct b0 ⟨c2_struct.documentation,
        c2_struct.associated_constants.map (fun it => (it, c2_struct)), [],
        c2_struct.export_name ++ "ByReference", "P", "Structure.ByReference",
        c2_struct.annotations.deprecated⟩
        (write_jna_struct b0 ⟨c2_struct.documentation,
          c2_struct.associated_constants.map (fun it => (it, c2_struct)), [],
          c2_struct.export_name, "P", "Structure.ByValue",
          c2_struct.annotations.deprecated⟩ init_st) :=
  (claim_C2_transparent_dispatch b0 c2_struct init_st rfl).2.1
    ⟨"0", .Path "P", ⟨[]⟩⟩ "P" rfl rfl

theorem appends_write_jna_struct (b : Backend) (s : JnaStruct) :
    W.appends (write_jna_struct b s) := by
  intro st
  unfold write_jna_struct
  have hite : W.appends (fun st0 =>
      if (s.fields.map (fun it => "\"" ++ (it.name ++ "\""))).isEmpty then st0
      else field_order_block b (s.fields.map (fun it => "\"" ++ (it.name ++ "\""))) st0) := by
    intro st0
    split
    · exact ⟨[], by simp⟩
    · exact appends_field_order_block b _ st0
  exact appends_comp (appends_comp (appends_comp (appends_comp (appends_comp
    (appends_comp (appends_comp (appends_comp (appends_comp (appends_comp
      appends_new_line (appends_doc s.documentation)) (appends_depr s.deprecated)) hite)
      (appends_write _)) appends_open_brace) (appends_constants_block s.constants))
      (appends_ctor_block s.name)) (appends_fields_block s.fields))
      (appends_close_brace false)) appends_new_line st

theorem mem_class_header_write_jna (b : Backend) (s : JnaStruct) (st : WState) :
    ("class " ++ (s.name ++ (" extends " ++ (s.superclass ++ (" implements " ++ s.interface)))))
      ∈ (write_jna_struct b s st).chunks := by
  unfold write_jna_struct
  apply mem_of_appends (appends_comp (appends_comp (appends_comp (appends_comp
    (appends_comp appends_open_brace (appends_constants_block s.constants))
    (appends_ctor_block s.name)) (appends_fields_block s.fields))
    (appends_close_brace false)) appends_new_line)
  simp [W.write]

/-- C6: a union is emitted through the non-transparent aggregate path
regardless of any transparent flag: a by-value class and a `ByReference`
class, both with superclass `Union`, default and from-handle constructors,
the declared field list, and field-order annotation handling; the emitted
output is independent of the union's transparent flag and also of its
associated constants, which the emitter replaces by an empty list. -/
theorem claim_C6_union_aggregate :
    ∀ (b : Backend) (u : Union') (st : WState),
      (write_union b u st =
        write_jna_struct b ⟨u.documentation, [], u.fields, u.export_name ++ "ByReference",
          "Union", "Structure.ByReference", u.annotations.deprecated⟩
          (write_jna_struct b ⟨u.documentation, [], u.fields, u.export_name, "Union",
            "Structure.ByValue", u.annotations.deprecated⟩ st)) ∧
      (∀ (fl : Bool) (cs : List Constant),
        write_union b ⟨u.export_name, u.fields, fl, cs, u.annotations, u.documentation⟩ st =
          write_union b u st) ∧
      ("class " ++ (u.export_name ++ (" extends " ++ ("Union" ++
          (" implements " ++ "Structure.ByValue")))))
        ∈ (write_union b u st).chunks ∧
      ("class " ++ ((u.export_name ++ "ByReference") ++ (" extends " ++ ("Union" ++
          (" implements " ++ "Structure.ByReference")))))
        ∈ (write_union b u st).chunks := by
  intro b u st
  refine ⟨rfl, fun fl cs => rfl, ?_, ?_⟩
  · exact mem_of_appends (appends_write_jna_struct b _) (mem_class_header_write_jna b _ st)
  · exact mem_class_header_write_jna b _ _

/-- C6 counterexample: the associated constant `K : int = 42` of a union is
not rendered anywhere in the union's emitted output, although the very same
constant attached to a non-transparent struct is rendered as a static
field; the claim's "any associated constants rendered as static fields"
fails for unions. -/
theorem claim_C6_counterexample :
    "public static final int K = 42;" ∉ (write_union b0 c6_union init_st).chunks ∧
    "public static final int K = 42;" ∈ (write_struct b0 c6_struct init_st).chunks := by
  decide

/-- C10: the `@Structure.FieldOrder` annotation chunk is emitted by the
aggregate path exactly when the field list is non-empty; in particular a
zero-field union, a zero-field non-transparent struct, and the
transparent-Path subclassing case (which passes an empty field list)
produce no field-order annotation at all. -/
theorem claim_C10_field_order_iff_nonempty :
    ∀ (b : Backend) (s : JnaStruct) (st : WState),
      (field_order_ann ∈ (write_jna_struct b s st).chunks ↔
        (field_order_ann ∈ st.chunks ∨ s.fields ≠ [])) ∧
      (∀ u : Union', u.fields = [] → field_order_ann ∉ st.chunks →
        field_order_ann ∉ (write_union b u st).chunks) ∧
      (∀ s2 : Struct', s2.is_transparent = false → s2.fields = [] →
        field_order_ann ∉ st.chunks →
        field_order_ann ∉ (write_struct b s2 st).chunks) ∧
      (∀ (s2 : Struct') (fn p : String) (fd : Documentation),
        s2.is_transparent = true → s2.fields.head? = some ⟨fn, .Path p, fd⟩ →
        field_order_ann ∉ st.chunks →
        field_order_ann ∉ (write_struct b s2 st).chunks) := by
  intro b s st
  refine ⟨mem_ann_write_jna_struct b s st, ?_, ?_, ?_⟩
  · intro u hu hst hmem
    unfold write_union at hmem
    rcases (mem_ann_write_jna_struct b _ _).mp hmem with h | h
    · rcases (mem_ann_write_jna_struct b _ _).mp h with h2 | h2
      · exact hst h2
      · exact h2 hu
    · exact h hu
  · intro s2 htr hfe hst hmem
    unfold write_struct at hmem
    rw [htr] at hmem
    simp only [Bool.false_eq_true, if_false] at hmem
    rcases (mem_ann_write_jna_struct b _ _).mp hmem with h | h
    · rcases (mem_ann_write_jna_struct b _ _).mp h with h2 | h2
      · exact hst h2
      · exact h2 hfe
    · exact h hfe
  · intro s2 fn p fd htr hh hst hmem
    have heq : write_struct b s2 st =
        write_jna_struct b ⟨s2.documentation,
          s2.associated_constants.map (fun it => (it, s2)), [],
          s2.export_name ++ "ByReference", p, "Structure.ByReference",
          s2.annotations.deprecated⟩
          (write_jna_struct b ⟨s2.documentation,
            s2.associated_constants.map (fun it => (it, s2)), [], s2.export_name, p,
            "Structure.ByValue", s2.annotations.deprecated⟩ st) := by
      unfold write_struct
      rw [htr, hh]
      rfl
    rw [heq] at hmem
    rcases (mem_ann_write_jna_struct b _ _).mp hmem with h | h
    · rcases (mem_ann_write_jna_struct b _ _).mp h with h2 | h2
      · exact hst h2
      · exact h2 rfl
    · exact h rfl

/-- C10 witness: a concrete zero-field union is emitted with no field-order
annotation chunk. -/
theorem claim_C10_field_order_iff_nonempty_witness :
    field_order_ann ∉ (write_union b0 c10_union init_st).chunks :=
  (claim_C10_field_order_iff_nonempty b0 ⟨⟨[]⟩, [], [], "", "", "", none⟩ init_st).2.1
    c10_union rfl (by decide)

theorem appends_args (b : Backend) (a : List IndexedFunctionArg) :
    W.appends (write_indexed_function_args b a) := by
  cases hb : b.config.function.args <;>
    simp only [write_indexed_function_args, hb]
  · exact appends_horizontal _ _
  · exact appends_vertical _ _
  · exact appends_try_write (appends_horizontal _ _) (appends_vertical _ _)

theorem appends_typedef_subclass (d : Documentation) (n s : String) :
    W.appends (typedef_subclass_block d n s) := by
  intro st
  unfold typedef_subclass_block
  exact appends_comp (appends_comp (appends_comp (appends_comp (appends_comp
    (appends_comp (appends_comp (appends_comp (appends_comp (appends_comp
      (appends_comp (appends_comp (appends_doc d)
        (appends_write ("class " ++ (n ++ (" extends " ++ s))))) appends_open_brace)
      (appends_write ("public " ++ (n ++ "()")))) appends_open_brace)
      (appends_write "super();")) (appends_close_brace false)) appends_new_line)
      (appends_write ("public " ++ (n ++ "(Pointer p)")))) appends_open_brace)
      (appends_write "super(p);")) (appends_close_brace false))
      (appends_close_brace false) st

theorem mem_hdr_typedef_subclass (d : Documentation) (n s : String) (st : WState) :
    ("class " ++ (n ++ (" extends " ++ s))) ∈ (typedef_subclass_block d n s st).chunks := by
  unfold typedef_subclass_block
  apply mem_of_appends (appends_comp (appends_comp (appends_comp (appends_comp
    (appends_comp (appends_comp (appends_comp (appends_comp (appends_comp
      (appends_comp appends_open_brace (appends_write ("public " ++ (n ++ "()"))))
      appends_open_brace) (appends_write "super();")) (appends_close_brace false))
      appends_new_line) (appends_write ("public " ++ (n ++ "(Pointer p)"))))
      appends_open_brace) (appends_write "super(p);")) (appends_close_brace false))
    (appends_close_brace false))
  simp [W.write]

/-- C5: typedef emission dispatches purely on the aliased type's tag: a
function pointer produces a callback interface with a single `invoke`
method whose parameters are named by their declared name, or `arg<index>`
when the name is absent or the wildcard `_`; a Path produces two classes
subclassing the referenced path's by-value and by-reference classes with
mirroring constructors; an integer primitive delegates to the
integer-wrapper synthesizer; a pointer or array delegates to the
pointer-wrapper synthesizer; any other primitive produces the soft-failure
placeholder. -/
theorem claim_C5_typedef_dispatch :
    (∀ a : IndexedFunctionArg, arg_display_name a =
      match a.name with
      | none => "arg" ++ toString a.index
      | some n => if n = "_" then "arg" ++ toString a.index else n) ∧
    (∀ (b : Backend) (t : Typedef') (st : WState),
      (∀ ret args, t.aliased = .FuncPtr ret args →
        ("interface " ++ (t.export_name ++ " extends Callback"))
          ∈ (write_type_def b t st).chunks ∧
        " invoke(" ∈ (write_type_def b t st).chunks) ∧
      (∀ p, t.aliased = .Path p →
        write_type_def b t st =
          typedef_subclass_block t.documentation (t.export_name ++ "ByReference")
            (p ++ "ByReference")
            (W.new_line (W.new_line
              (typedef_subclass_block t.documentation t.export_name p st))) ∧
        ("class " ++ (t.export_name ++ (" extends " ++ p)))
          ∈ (write_type_def b t st).chunks ∧
        ("class " ++ ((t.export_name ++ "ByReference") ++ (" extends " ++ (p ++ "ByReference"))))
          ∈ (write_type_def b t st).chunks) ∧
      (∀ kind, t.aliased = .Primitive (.Integer kind) →
        write_type_def b t st = write_integer_type t.documentation t.export_name
          (JnaIntegerType.from_kind kind) t.annotations.deprecated (fun st => st) st) ∧
      (∀ ty, t.aliased = .Ptr ty →
        write_type_def b t st =
          write_pointer_type t.documentation t.annotations.deprecated t.export_name st) ∧
      (∀ ty len, t.aliased = .Array ty len →
        write_type_def b t st =
          write_pointer_type t.documentation t.annotations.deprecated t.export_name st) ∧
      (∀ p, t.aliased = .Primitive p → (∀ k, p ≠ .Integer k) →
        write_type_def b t st = not_implemented (typedef_debug t) st)) := by
  refine ⟨?_, ?_⟩
  · intro a
    rcases a with ⟨ty, name, idx⟩
    cases name with
    | none => rfl
    | some n =>
      by_cases h : n = "_" <;> simp [arg_display_name, h]
  · intro b t st
    refine ⟨?_, ?_, ?_, ?_, ?_, ?_⟩
    · intro ret args hal
      have heq : write_type_def b t st = W.close_brace false (W.write ");"
          (write_indexed_function_args b (indexed_args_of args)
            (W.write " invoke(" (write_type ret (W.open_brace
              (W.write ("interface " ++ (t.export_name ++ " extends Callback")) st)))))) := by
        unfold write_type_def
        rw [hal]
      rw [heq]
      constructor
      · apply mem_of_appends (appends_comp (appends_comp (appends_comp (appends_comp
          (appends_comp appends_open_brace (appends_write_type ret))
          (appends_write " invoke(")) (appends_args b (indexed_args_of args)))
          (appends_write ");")) (appends_close_brace false))
        simp [W.write]
      · apply mem_of_appends (appends_comp (appends_comp
          (appends_args b (indexed_args_of args)) (appends_write ");"))
          (appends_close_brace false))
        simp [W.write]
    · intro p hal
      have heq : write_type_def b t st =
          typedef_subclass_block t.documentation (t.export_name ++ "ByReference")
            (p ++ "ByReference")
            (W.new_line (W.new_line
              (typedef_subclass_block t.documentation t.export_name p st))) := by
        unfold write_type_def
        rw [hal]
      refine ⟨heq, ?_, ?_⟩
      · rw [heq]
        exact mem_of_appends (appends_comp (appends_comp appends_new_line appends_new_line)
          (appends_typedef_subclass _ _ _)) (mem_hdr_typedef_subclass _ _ _ st)
      · rw [heq]
        exact mem_hdr_typedef_subclass _ _ _ _
    · intro kind hal
      unfold write_type_def
      rw [hal]
    · intro ty hal
      unfold write_type_def
      rw [hal]
    · intro ty len hal
      unfold write_type_def
      rw [hal]
    · intro p hal hne
      unfold write_type_def
      rw [hal]
      cases p
      case Integer k => exact absurd rfl (hne k)
      all_goals rfl

/-- C5 witness: the Path case instantiated at the concrete typedef `T`
aliasing `Path P`: the by-value class extends `P` and the by-reference
class extends `PByReference`. -/
theorem claim_C5_typedef_dispatch_witness :
    ("class " ++ ("T" ++ (" extends " ++ "P")))
      ∈ (write_type_def b0 c5_typedef init_st).chunks ∧
    ("class " ++ (("T" ++ "ByReference") ++ (" extends " ++ ("P" ++ "ByReference"))))
      ∈ (write_type_def b0 c5_typedef init_st).chunks :=
  ⟨(claim_C5_typedef_dispatch.2 b0 c5_typedef init_st).2.1 "P" rfl |>.2.1,
   (claim_C5_typedef_dispatch.2 b0 c5_typedef init_st).2.1 "P" rfl |>.2.2⟩

/-- C7: literal rendering pairs an expression literal with its target type:
double and float literals gain the `d` respectively `f` suffix, 64-bit
integer kinds gain `L`, platform long/size kinds are wrapped in a
`NativeLong` constructor, Path-typed constants are wrapped in the path's
constructor, every other target type passes the literal through unchanged,
non-expression literals are never rewritten, and struct and other composite
literal forms render as the soft-failure placeholder. -/
theorem claim_C7_literal_rendering :
    (∀ e, wrap_java_value (.Expr e) (.Primitive .Double) = .Expr (e ++ "d")) ∧
    (∀ e, wrap_java_value (.Expr e) (.Primitive .Float) = .Expr (e ++ "f")) ∧
    (∀ e, wrap_java_value (.Expr e) (.Primitive (.Integer .LongLong)) = .Expr (e ++ "L")) ∧
    (∀ e, wrap_java_value (.Expr e) (.Primitive (.Integer .B64)) = .Expr (e ++ "L")) ∧
    (∀ e k, (k = IntKind.Long ∨ k = IntKind.Size ∨ k = IntKind.SizeT) →
      wrap_java_value (.Expr e) (.Primitive (.Integer k)) =
        .Expr ("new NativeLong(" ++ (e ++ ")"))) ∧
    (∀ e p, wrap_java_value (.Expr e) (.Path p) =
      .Expr ("new " ++ (p ++ ("(" ++ (e ++ ")"))))) ∧
    (∀ e ty, transforming_type ty = false → wrap_java_value (.Expr e) ty = .Expr e) ∧
    (∀ l ty, (∀ e, l ≠ .Expr e) → wrap_java_value l ty = l) ∧
    (∀ e st, write_literal (.Expr e) st = W.write e st) ∧
    (∀ n st, write_literal (.Struct n) st =
      not_implemented (debug_string ("Struct Literal " ++ n)) st) ∧
    (∀ d st, write_literal (.OtherLit d) st = not_implemented d st) := by
  refine ⟨fun e => rfl, fun e => rfl, fun e => rfl, fun e => rfl, ?_, fun e p => rfl, ?_, ?_,
    fun e st => rfl, fun n st => rfl, fun d st => rfl⟩
  · intro e k h
    rcases h with rfl | rfl | rfl <;> rfl
  · intro e ty h
    cases ty with
    | Primitive p =>
      cases p with
      | Integer k => cases k <;> first | rfl | simp [transforming_type] at h
      | Double => simp [transforming_type] at h
      | Float => simp [transforming_type] at h
      | _ => rfl
    | Path p => simp [transforming_type] at h
    | _ => rfl
  · intro l ty h
    cases l with
    | Expr e => exact absurd rfl (h e)
    | Struct n => rfl
    | OtherLit d => rfl

/-- C7 witness: a `long`-typed expression literal is wrapped in a
`NativeLong` constructor call. -/
theorem claim_C7_literal_rendering_witness :
    wrap_java_value (.Expr "7") (.Primitive (.Integer .Long)) =
      .Expr ("new NativeLong(" ++ ("7" ++ ")")) :=
  claim_C7_literal_rendering.2.2.2.2.1 "7" IntKind.Long (Or.inl rfl)

/-- C8: unsupported IR shapes degrade to a visibly marked placeholder
comment carrying the node's debug form, and nothing fails: static items
always emit the placeholder, struct literals emit the placeholder,
non-integer-primitive typedefs emit the placeholder, the placeholder is a
single appended comment chunk, and emission of a declaration list is the
sequential composition of the per-declaration emitters, so one unsupported
node never blocks the rest. -/
theorem claim_C8_soft_failure :
    (∀ (s : Static') (st : WState), write_static s st = not_implemented (static_debug s) st) ∧
    (∀ (dbg : String) (st : WState), (not_implemented dbg st).chunks =
      st.chunks ++ ["/* Not implemented yet : " ++ (dbg ++ " */")]) ∧
    (∀ (n : String) (st : WState), write_literal (.Struct n) st =
      not_implemented (debug_string ("Struct Literal " ++ n)) st) ∧
    (∀ (b : Backend) (t : Typedef') (st : WState) (p : PrimitiveType),
      t.aliased = .Primitive p → (∀ k, p ≠ .Integer k) →
      write_type_def b t st = not_implemented (typedef_debug t) st) ∧
    (∀ (b : Backend) (xs ys : List Item) (st : WState),
      emit_items b (xs ++ ys) st = emit_items b ys (emit_items b xs st)) := by
  refine ⟨fun s st => rfl, fun dbg st => rfl, fun n st => rfl, ?_, ?_⟩
  · intro b t st p hal hne
    unfold write_type_def
    rw [hal]
    cases p
    case Integer k => exact absurd rfl (hne k)
    all_goals rfl
  · intro b xs ys st
    simp [emit_items, List.foldl_append]

/-- C8 witness: the typedef `B` aliasing the non-integer primitive `bool`
emits exactly the placeholder comment. -/
theorem claim_C8_soft_failure_witness :
    write_type_def b0 c8_typedef init_st = not_implemented (typedef_debug c8_typedef) init_st :=
  claim_C8_soft_failure.2.2.2.1 b0 c8_typedef init_st .Bool rfl (fun _ h => nomatch h)

/-- C9: emission is deterministic — the output of a complete run is a pure
function of the configuration, the binding name and the declaration list;
the backend value holds nothing else, so two runs over the same inputs
produce byte-identical output. -/
theorem claim_C9_deterministic :
    ∀ (b1 b2 : Backend) (items : List Item),
      b1.config = b2.config → b1.binding_lib_crate_name = b2.binding_lib_crate_name →
      emit_run b1 items = emit_run b2 items := by
  intro b1 b2 items hc hn
  rcases b1 with ⟨c1, n1⟩
  rcases b2 with ⟨c2, n2⟩
  cases hc
  cases hn
  rfl

/-- C9 witness: two syntactically distinct backend values with equal
configuration and binding name produce the same bytes for a one-item run. -/
theorem claim_C9_deterministic_witness :
    emit_run b0 [.staticItem ⟨"s", .Primitive .Void, .Expr "0"⟩] =
      emit_run ⟨⟨none, false, none, ⟨none, none, none⟩, 100, ⟨.Auto⟩⟩, "lib"⟩
        [.staticItem ⟨"s", .Primitive .Void, .Expr "0"⟩] :=
  claim_C9_deterministic b0 ⟨⟨none, false, none, ⟨none, none, none⟩, 100, ⟨.Auto⟩⟩, "lib"⟩
    [.staticItem ⟨"s", .Primitive .Void, .Expr "0"⟩] rfl rfl
